import Mathlib

/-!
Verification development for the terrain-builder editor core
(`src/main.rs`, `src/input.rs`, `src/skybox.rs`).

Conventions of the shallow embedding:
* `f32`/`f64` scalar values are modelled as rationals (`ℚ`); the claims
  settled here are order-theoretic / algebraic and do not depend on
  rounding.  The float infinity sentinel used for the terrain cursor is
  modelled by a dedicated constructor (`Cursor.inf`), matching
  `vec2_infinity()` / `Vec2::is_finite()` in the source.
* `std::time::Instant` is modelled as a rational timestamp; `Instant::now()`
  becomes an explicit `now` parameter.
* Code living in modules of this repository that are not present under
  `src/` (camera.rs, terrain.rs, ray.rs, editor/) is either abstracted
  into type/function parameters (an `Env` record) when a claim does not
  depend on its internals, or modelled from the spec with an explicit
  `Modelled from the spec:` doc comment.
-/

namespace TerrainBuilder

/-- Scalar type of the model (stands for `f32`/`f64`). -/
abbrev Q := ℚ

/-- Embedding of `glam::Vec2`, components modelled as rationals. -/
structure Vec2 where
  x : Q
  y : Q
deriving DecidableEq, Repr

instance : Add Vec2 := ⟨fun a b => ⟨a.x + b.x, a.y + b.y⟩⟩

instance : Zero Vec2 := ⟨⟨0, 0⟩⟩

/-- Division of a vector by a scalar, as in `Vec2::new(x, y) / scale_factor`. -/
instance : HDiv Vec2 Q Vec2 := ⟨fun v k => ⟨v.x / k, v.y / k⟩⟩

/-- Embedding of `glam::Vec3`, components modelled as rationals. -/
structure Vec3 where
  x : Q
  y : Q
  z : Q
deriving DecidableEq, Repr

/-- The terrain cursor: a 2D terrain-space point or the `vec2_infinity()`
sentinel (`Vec2::new(f32::INFINITY, f32::INFINITY)`), whose float infinity
is modelled by the dedicated constructor `inf`. -/
inductive Cursor where
  | fin (x z : Q)
  | inf
deriving DecidableEq, Repr

/-- Embedding of `utils::vec2_infinity()` — the "no intersection / hide cursor" sentinel. -/
def vec2_infinity : Cursor := Cursor.inf

/-- Embedding of `Vec2::is_finite()` on the cursor value. -/
def Cursor.is_finite : Cursor → Bool
  | Cursor.fin _ _ => true
  | Cursor.inf => false

/-- Embedding of `input::Modifiers` (src/input.rs). -/
structure Modifiers where
  alt : Bool
  ctrl : Bool
  shift : Bool
  logo : Bool
deriving DecidableEq, Repr

instance : Inhabited Modifiers := ⟨⟨false, false, false, false⟩⟩

/-- Embedding of `Modifiers::default()`. -/
def Modifiers.default : Modifiers := ⟨false, false, false, false⟩

/-- Embedding of `input::Key` (src/input.rs) — the semantic key enumeration. -/
inductive Key where
  | ArrowDown | ArrowLeft | ArrowRight | ArrowUp
  | Escape | Tab | Backspace | Enter | Space
  | Insert | Delete | Home | End | PageUp | PageDown
  | Num0 | Num1 | Num2 | Num3 | Num4 | Num5 | Num6 | Num7 | Num8 | Num9
  | Key0 | Key1 | Key2 | Key3 | Key4 | Key5 | Key6 | Key7 | Key8 | Key9
  | A | B | C | D | E | F | G | H | I | J | K | L | M
  | N | O | P | Q | R | S | T | U | V | W | X | Y | Z
  | F1 | F2 | F3 | F4 | F5 | F6 | F7 | F8 | F9 | F10 | F11 | F12
  | F13 | F14 | F15 | F16 | F17 | F18 | F19 | F20 | F21 | F22 | F23 | F24
  | Unknown
deriving DecidableEq, Repr

/-- Embedding of `glutin::event::VirtualKeyCode` (re-export of winit's platform key code
enumeration; external library type, reproduced in full so that the wildcard
arm of the translation can be checked). -/
inductive VirtualKeyCode where
  | Key1 | Key2 | Key3 | Key4 | Key5 | Key6 | Key7 | Key8 | Key9 | Key0
  | A | B | C | D | E | F | G | H | I | J | K | L | M
  | N | O | P | Q | R | S | T | U | V | W | X | Y | Z
  | Escape
  | F1 | F2 | F3 | F4 | F5 | F6 | F7 | F8 | F9 | F10 | F11 | F12
  | F13 | F14 | F15 | F16 | F17 | F18 | F19 | F20 | F21 | F22 | F23 | F24
  | Snapshot | Scroll | Pause
  | Insert | Home | Delete | End | PageDown | PageUp
  | Left | Up | Right | Down
  | Back | Return | Space
  | Compose | Caret | Numlock
  | Numpad0 | Numpad1 | Numpad2 | Numpad3 | Numpad4
  | Numpad5 | Numpad6 | Numpad7 | Numpad8 | Numpad9
  | NumpadAdd | NumpadDivide | NumpadDecimal | NumpadComma
  | NumpadEnter | NumpadEquals | NumpadMultiply | NumpadSubtract
  | AbntC1 | AbntC2 | Apostrophe | Apps | Asterisk | At | Ax
  | Backslash | Calculator | Capital | Colon | Comma | Convert
  | Equals | Grave | Kana | Kanji | LAlt | LBracket | LControl
  | LShift | LWin | Mail | MediaSelect | MediaStop | Minus | Mute
  | MyComputer | NavigateForward | NavigateBackward | NextTrack
  | NoConvert | OEM102 | Period | PlayPause | Plus | Power | PrevTrack
  | RAlt | RBracket | RControl | RShift | RWin | Semicolon | Slash
  | Sleep | Stop | Sysrq | Tab | Underline | Unlabeled
  | VolumeDown | VolumeUp | Wake
  | WebBack | WebFavorites | WebForward | WebHome | WebRefresh
  | WebSearch | WebStop | Yen | Copy | Paste | Cut
deriving DecidableEq, Repr

/-- Embedding of `impl From<VirtualKeyCode> for Key` (src/input.rs lines 281-380):
the arms of the `match`, with the wildcard arm mapping to `Key::Unknown`. -/
def Key.ofVirtualKeyCode : VirtualKeyCode → Key
  | VirtualKeyCode.A => Key.A
  | VirtualKeyCode.B => Key.B
  | VirtualKeyCode.C => Key.C
  | VirtualKeyCode.D => Key.D
  | VirtualKeyCode.E => Key.E
  | VirtualKeyCode.F => Key.F
  | VirtualKeyCode.G => Key.G
  | VirtualKeyCode.H => Key.H
  | VirtualKeyCode.I => Key.I
  | VirtualKeyCode.J => Key.J
  | VirtualKeyCode.K => Key.K
  | VirtualKeyCode.L => Key.L
  | VirtualKeyCode.M => Key.M
  | VirtualKeyCode.N => Key.N
  | VirtualKeyCode.O => Key.O
  | VirtualKeyCode.P => Key.P
  | VirtualKeyCode.Q => Key.Q
  | VirtualKeyCode.R => Key.R
  | VirtualKeyCode.S => Key.S
  | VirtualKeyCode.T => Key.T
  | VirtualKeyCode.U => Key.U
  | VirtualKeyCode.V => Key.V
  | VirtualKeyCode.W => Key.W
  | VirtualKeyCode.X => Key.X
  | VirtualKeyCode.Y => Key.Y
  | VirtualKeyCode.Z => Key.Z
  | VirtualKeyCode.F1 => Key.F1
  | VirtualKeyCode.F2 => Key.F2
  | VirtualKeyCode.F3 => Key.F3
  | VirtualKeyCode.F4 => Key.F4
  | VirtualKeyCode.F5 => Key.F5
  | VirtualKeyCode.F6 => Key.F6
  | VirtualKeyCode.F7 => Key.F7
  | VirtualKeyCode.F8 => Key.F8
  | VirtualKeyCode.F9 => Key.F9
  | VirtualKeyCode.F10 => Key.F10
  | VirtualKeyCode.F11 => Key.F11
  | VirtualKeyCode.F12 => Key.F12
  | VirtualKeyCode.F13 => Key.F13
  | VirtualKeyCode.F14 => Key.F14
  | VirtualKeyCode.F15 => Key.F15
  | VirtualKeyCode.F16 => Key.F16
  | VirtualKeyCode.F17 => Key.F17
  | VirtualKeyCode.F18 => Key.F18
  | VirtualKeyCode.F19 => Key.F19
  | VirtualKeyCode.F20 => Key.F20
  | VirtualKeyCode.F21 => Key.F21
  | VirtualKeyCode.F22 => Key.F22
  | VirtualKeyCode.F23 => Key.F23
  | VirtualKeyCode.F24 => Key.F24
  | VirtualKeyCode.Escape => Key.Escape
  | VirtualKeyCode.Insert => Key.Insert
  | VirtualKeyCode.Home => Key.Home
  | VirtualKeyCode.Delete => Key.Delete
  | VirtualKeyCode.End => Key.End
  | VirtualKeyCode.PageDown => Key.PageDown
  | VirtualKeyCode.PageUp => Key.PageUp
  | VirtualKeyCode.Left => Key.ArrowLeft
  | VirtualKeyCode.Up => Key.ArrowUp
  | VirtualKeyCode.Right => Key.ArrowRight
  | VirtualKeyCode.Down => Key.ArrowDown
  | VirtualKeyCode.Back => Key.Backspace
  | VirtualKeyCode.Return => Key.Enter
  | VirtualKeyCode.Space => Key.Space
  | VirtualKeyCode.Key1 => Key.Key1
  | VirtualKeyCode.Key2 => Key.Key2
  | VirtualKeyCode.Key3 => Key.Key3
  | VirtualKeyCode.Key4 => Key.Key4
  | VirtualKeyCode.Key5 => Key.Key5
  | VirtualKeyCode.Key6 => Key.Key6
  | VirtualKeyCode.Key7 => Key.Key7
  | VirtualKeyCode.Key8 => Key.Key8
  | VirtualKeyCode.Key9 => Key.Key9
  | VirtualKeyCode.Key0 => Key.Key0
  | VirtualKeyCode.Numpad0 => Key.Num0
  | VirtualKeyCode.Numpad1 => Key.Num1
  | VirtualKeyCode.Numpad2 => Key.Num2
  | VirtualKeyCode.Numpad3 => Key.Num3
  | VirtualKeyCode.Numpad4 => Key.Num4
  | VirtualKeyCode.Numpad5 => Key.Num5
  | VirtualKeyCode.Numpad6 => Key.Num6
  | VirtualKeyCode.Numpad7 => Key.Num7
  | VirtualKeyCode.Numpad8 => Key.Num8
  | VirtualKeyCode.Numpad9 => Key.Num9
  | _ => Key.Unknown

/-- Characterization (for the statement of the claim about the key
translation): the platform key codes that do NOT appear in any arm of the
`From<VirtualKeyCode> for Key` match, i.e. that fall to the wildcard.
Note `Tab` is among them. -/
def VirtualKeyCode.unmapped : VirtualKeyCode → Bool
  | VirtualKeyCode.Snapshot | VirtualKeyCode.Scroll | VirtualKeyCode.Pause => true
  | VirtualKeyCode.Compose | VirtualKeyCode.Caret | VirtualKeyCode.Numlock => true
  | VirtualKeyCode.NumpadAdd | VirtualKeyCode.NumpadDivide => true
  | VirtualKeyCode.NumpadDecimal | VirtualKeyCode.NumpadComma => true
  | VirtualKeyCode.NumpadEnter | VirtualKeyCode.NumpadEquals => true
  | VirtualKeyCode.NumpadMultiply | VirtualKeyCode.NumpadSubtract => true
  | VirtualKeyCode.AbntC1 | VirtualKeyCode.AbntC2 | VirtualKeyCode.Apostrophe => true
  | VirtualKeyCode.Apps | VirtualKeyCode.Asterisk | VirtualKeyCode.At => true
  | VirtualKeyCode.Ax | VirtualKeyCode.Backslash | VirtualKeyCode.Calculator => true
  | VirtualKeyCode.Capital | VirtualKeyCode.Colon | VirtualKeyCode.Comma => true
  | VirtualKeyCode.Convert | VirtualKeyCode.Equals | VirtualKeyCode.Grave => true
  | VirtualKeyCode.Kana | VirtualKeyCode.Kanji | VirtualKeyCode.LAlt => true
  | VirtualKeyCode.LBracket | VirtualKeyCode.LControl | VirtualKeyCode.LShift => true
  | VirtualKeyCode.LWin | VirtualKeyCode.Mail | VirtualKeyCode.MediaSelect => true
  | VirtualKeyCode.MediaStop | VirtualKeyCode.Minus | VirtualKeyCode.Mute => true
  | VirtualKeyCode.MyComputer | VirtualKeyCode.NavigateForward => true
  | VirtualKeyCode.NavigateBackward | VirtualKeyCode.NextTrack => true
  | VirtualKeyCode.NoConvert | VirtualKeyCode.OEM102 | VirtualKeyCode.Period => true
  | VirtualKeyCode.PlayPause | VirtualKeyCode.Plus | VirtualKeyCode.Power => true
  | VirtualKeyCode.PrevTrack | VirtualKeyCode.RAlt | VirtualKeyCode.RBracket => true
  | VirtualKeyCode.RControl | VirtualKeyCode.RShift | VirtualKeyCode.RWin => true
  | VirtualKeyCode.Semicolon | VirtualKeyCode.Slash | VirtualKeyCode.Sleep => true
  | VirtualKeyCode.Stop | VirtualKeyCode.Sysrq | VirtualKeyCode.Tab => true
  | VirtualKeyCode.Underline | VirtualKeyCode.Unlabeled => true
  | VirtualKeyCode.VolumeDown | VirtualKeyCode.VolumeUp | VirtualKeyCode.Wake => true
  | VirtualKeyCode.WebBack | VirtualKeyCode.WebFavorites => true
  | VirtualKeyCode.WebForward | VirtualKeyCode.WebHome => true
  | VirtualKeyCode.WebRefresh | VirtualKeyCode.WebSearch => true
  | VirtualKeyCode.WebStop | VirtualKeyCode.Yen => true
  | VirtualKeyCode.Copy | VirtualKeyCode.Paste | VirtualKeyCode.Cut => true
  | _ => false

/-- Embedding of `egui::Key` (external GUI library key enumeration, version used by the
repository). -/
inductive EguiKey where
  | ArrowDown | ArrowLeft | ArrowRight | ArrowUp
  | Escape | Tab | Backspace | Enter | Space
  | Insert | Delete | Home | End | PageUp | PageDown
  | Num0 | Num1 | Num2 | Num3 | Num4 | Num5 | Num6 | Num7 | Num8 | Num9
  | A | B | C | D | E | F | G | H | I | J | K | L | M
  | N | O | P | Q | R | S | T | U | V | W | X | Y | Z
deriving DecidableEq, Repr

/-- Embedding of `impl TryFrom<Key> for egui::Key` (src/input.rs lines 382-460):
`Err(())` is modelled as `none`, the wildcard arm returns `Err(())`. -/
def EguiKey.tryFromKey : Key → Option EguiKey
  | Key.A => some EguiKey.A
  | Key.B => some EguiKey.B
  | Key.C => some EguiKey.C
  | Key.D => some EguiKey.D
  | Key.E => some EguiKey.E
  | Key.F => some EguiKey.F
  | Key.G => some EguiKey.G
  | Key.H => some EguiKey.H
  | Key.I => some EguiKey.I
  | Key.J => some EguiKey.J
  | Key.K => some EguiKey.K
  | Key.L => some EguiKey.L
  | Key.M => some EguiKey.M
  | Key.N => some EguiKey.N
  | Key.O => some EguiKey.O
  | Key.P => some EguiKey.P
  | Key.Q => some EguiKey.Q
  | Key.R => some EguiKey.R
  | Key.S => some EguiKey.S
  | Key.T => some EguiKey.T
  | Key.U => some EguiKey.U
  | Key.V => some EguiKey.V
  | Key.W => some EguiKey.W
  | Key.X => some EguiKey.X
  | Key.Y => some EguiKey.Y
  | Key.Z => some EguiKey.Z
  | Key.Escape => some EguiKey.Escape
  | Key.Insert => some EguiKey.Insert
  | Key.Home => some EguiKey.Home
  | Key.Delete => some EguiKey.Delete
  | Key.End => some EguiKey.End
  | Key.PageDown => some EguiKey.PageDown
  | Key.PageUp => some EguiKey.PageUp
  | Key.ArrowLeft => some EguiKey.ArrowLeft
  | Key.ArrowUp => some EguiKey.ArrowUp
  | Key.ArrowRight => some EguiKey.ArrowRight
  | Key.ArrowDown => some EguiKey.ArrowDown
  | Key.Backspace => some EguiKey.Backspace
  | Key.Enter => some EguiKey.Enter
  | Key.Space => some EguiKey.Space
  | Key.Key1 => some EguiKey.Num1
  | Key.Key2 => some EguiKey.Num2
  | Key.Key3 => some EguiKey.Num3
  | Key.Key4 => some EguiKey.Num4
  | Key.Key5 => some EguiKey.Num5
  | Key.Key6 => some EguiKey.Num6
  | Key.Key7 => some EguiKey.Num7
  | Key.Key8 => some EguiKey.Num8
  | Key.Key9 => some EguiKey.Num9
  | Key.Key0 => some EguiKey.Num0
  | Key.Num0 => some EguiKey.Num0
  | Key.Num1 => some EguiKey.Num1
  | Key.Num2 => some EguiKey.Num2
  | Key.Num3 => some EguiKey.Num3
  | Key.Num4 => some EguiKey.Num4
  | Key.Num5 => some EguiKey.Num5
  | Key.Num6 => some EguiKey.Num6
  | Key.Num7 => some EguiKey.Num7
  | Key.Num8 => some EguiKey.Num8
  | Key.Num9 => some EguiKey.Num9
  | _ => none

/-- The keyboard top-row digit keys `Key0..Key9`, indexed by the digit. -/
def Key.topRowDigit (d : Fin 10) : Key :=
  [Key.Key0, Key.Key1, Key.Key2, Key.Key3, Key.Key4, Key.Key5, Key.Key6,
   Key.Key7, Key.Key8, Key.Key9].getD d.val Key.Unknown

/-- The numpad digit keys `Num0..Num9`, indexed by the digit. -/
def Key.numpadDigit (d : Fin 10) : Key :=
  [Key.Num0, Key.Num1, Key.Num2, Key.Num3, Key.Num4, Key.Num5, Key.Num6,
   Key.Num7, Key.Num8, Key.Num9].getD d.val Key.Unknown

/-- Characterization (for the statement of the claim about the GUI key
mapping): the semantic keys on which `TryFrom<Key> for egui::Key` falls to
the wildcard `Err(())` arm — `Tab`, the function keys, and `Unknown`. -/
def Key.noEguiEquivalent : Key → Bool
  | Key.Tab => true
  | Key.F1 | Key.F2 | Key.F3 | Key.F4 | Key.F5 | Key.F6 => true
  | Key.F7 | Key.F8 | Key.F9 | Key.F10 | Key.F11 | Key.F12 => true
  | Key.F13 | Key.F14 | Key.F15 | Key.F16 | Key.F17 | Key.F18 => true
  | Key.F19 | Key.F20 | Key.F21 | Key.F22 | Key.F23 | Key.F24 => true
  | Key.Unknown => true
  | _ => false

/-- Embedding of `input::MouseButton` (src/input.rs). -/
inductive MouseButton where
  | Primary
  | Secondary
  | Middle
  | Unknown
deriving DecidableEq, Repr

/-- Embedding of `input::Event` (src/input.rs). -/
inductive Event where
  | Copy
  | Cut
  | Key (key : Key) (pressed : Bool) (modifiers : Modifiers)
  | PointerMoved (p : Vec2)
  | MouseButtonPressed (pos : Vec2) (button : MouseButton)
      (pressed : Bool) (modifiers : Modifiers)
deriving DecidableEq, Repr

/-- Embedding of `input::RawInput` (src/input.rs).  `Instant` values are rational
timestamps. -/
structure RawInput where
  game_start : Q
  frame_start : Q
  delta_time : Q
  screen_size : Vec2
  pointer_pos : Vec2
  pointer_delta : Vec2
  scale_factor : Q
  scroll_delta : Vec2
  modifiers : Modifiers
  events : List Event
deriving DecidableEq, Repr

/-- Embedding of `RawInput::renew` (src/input.rs lines 61-76).  `Instant::now()` is the
explicit `now` parameter.  Returns `(returned snapshot, new live state)`:
the first component is the `RawInput` value the Rust function returns, the
second is what `self` holds afterwards (`mem::replace` keeps the old
`frame_start`/`delta_time` in the snapshot, `mem::take` moves the deltas
and the events out, leaving zero / empty behind). -/
def RawInput.renew (s : RawInput) (now : Q) : RawInput × RawInput :=
  let delta_time := now - s.frame_start
  ( { game_start := s.game_start
      frame_start := s.frame_start
      delta_time := s.delta_time
      screen_size := s.screen_size
      pointer_pos := s.pointer_pos
      pointer_delta := s.pointer_delta
      scale_factor := s.scale_factor
      scroll_delta := s.scroll_delta
      modifiers := s.modifiers
      events := s.events },
    { s with
      frame_start := now
      delta_time := delta_time
      pointer_delta := 0
      scroll_delta := 0
      events := [] } )

/-- Modelled from the spec: §4.1 — the InputTranslator "mutates the current
InputSnapshot in place" as platform events arrive between two `renew()`
calls.  The code pushing into `RawInput`'s fields is not under src/ (only
`renew` and the struct are); the mutations modelled are the ones §4.1
names for the snapshot round-trip: pushing an in-order event, accumulating
the pointer delta (`+=`), accumulating the scroll delta (`+=`), setting
the modifier state, setting the pointer position.  The accumulation
pattern mirrors `Game::process_event` in src/main.rs. -/
inductive Acc where
  | pushEvent (e : Event)
  | addPointerDelta (d : Vec2)
  | addScrollDelta (d : Vec2)
  | setModifiers (m : Modifiers)
  | setPointerPos (p : Vec2)
deriving DecidableEq, Repr

/-- One in-place mutation of the live snapshot (see `Acc`). -/
def RawInput.applyAcc (s : RawInput) : Acc → RawInput
  | Acc.pushEvent e => { s with events := s.events ++ [e] }
  | Acc.addPointerDelta d => { s with pointer_delta := s.pointer_delta + d }
  | Acc.addScrollDelta d => { s with scroll_delta := s.scroll_delta + d }
  | Acc.setModifiers m => { s with modifiers := m }
  | Acc.setPointerPos p => { s with pointer_pos := p }

/-- The mutations of one frame, applied in order. -/
def RawInput.applyAccs (s : RawInput) (ops : List Acc) : RawInput :=
  ops.foldl RawInput.applyAcc s

/-- The events pushed by a list of mutations, in order. -/
def Acc.pushedEvents : List Acc → List Event
  | [] => []
  | Acc.pushEvent e :: rest => e :: Acc.pushedEvents rest
  | _ :: rest => Acc.pushedEvents rest

/-- The total pointer delta accumulated by a list of mutations. -/
def Acc.pointerDeltaSum : List Acc → Vec2
  | [] => 0
  | Acc.addPointerDelta d :: rest => d + Acc.pointerDeltaSum rest
  | _ :: rest => Acc.pointerDeltaSum rest

/-- The total scroll delta accumulated by a list of mutations. -/
def Acc.scrollDeltaSum : List Acc → Vec2
  | [] => 0
  | Acc.addScrollDelta d :: rest => d + Acc.scrollDeltaSum rest
  | _ :: rest => Acc.scrollDeltaSum rest

/-- The per-button held state, as read through
`self.input.mouse_buttons.{primary,secondary,middle}` in src/main.rs. -/
structure MouseButtons where
  primary : Bool
  secondary : Bool
  middle : Bool
deriving DecidableEq, Repr

/-- Modelled from the spec: the `Input` snapshot type used by src/main.rs
is declared in a module revision not present under src/ (the `Input` in
src/input.rs is an older revision without these fields; only the callers
in src/main.rs are available).  Spec §3 InputSnapshot: "booleans for
movement keys, pointer position (2D, scale-adjusted), pointer delta (2D,
accumulated since last consumption), scroll delta, modifier flags,
mouse-button states, monotonically increasing frame time and delta-time,
and 'moved' dirty flags (`pointer_moved`, `camera_moved`, `scrolled`)".
Field names follow the uses in src/main.rs. -/
structure Input where
  forward : Bool
  back : Bool
  left : Bool
  right : Bool
  pointer : Vec2
  pointer_moved : Bool
  pointer_delta : Vec2
  scroll_delta : Vec2
  scrolled : Bool
  camera_moved : Bool
  mouse_buttons : MouseButtons
  modifiers : Modifiers
  should_exit : Bool
  time : Q
deriving DecidableEq, Repr

/-- Modelled from the spec: `Input::renew` as called by
`self.old_input = self.input.renew()` in src/main.rs (the definition is
not under src/).  Spec §3 lifecycle: the snapshot is "atomically swapped
out ('renewed') at end of frame returning the consumed snapshot and
resetting per-frame-only fields (deltas, dirty flags) while preserving
persistent fields (held-key states, modifiers)"; this mirrors the
`mem::take` pattern of `RawInput::renew`.  Returns
`(returned old snapshot, new live state)`. -/
def Input.renew (i : Input) : Input × Input :=
  ( i,
    { i with
      pointer_delta := 0
      scroll_delta := 0
      pointer_moved := false
      camera_moved := false
      scrolled := false } )

/-- Embedding of `TerrainTool` (src/main.rs). -/
inductive TerrainTool where
  | Sculpt
  | PaintTextures
  | PaintTrees
  | PaintVegetation
deriving DecidableEq, Repr

/-- Embedding of `EditorMode` (src/main.rs). -/
inductive EditorMode where
  | General
  | Terrain (tool : TerrainTool)
deriving DecidableEq, Repr

/-- Embedding of `EditorState` (src/main.rs). -/
structure EditorState where
  free_camera : Bool
deriving DecidableEq, Repr

/-- Embedding of `GameMode` (src/main.rs). -/
inductive GameMode where
  | Game
  | Editor (state : EditorState) (mode : EditorMode)
  | Menu
deriving DecidableEq, Repr

/-- The fields of `Game` (src/main.rs) mutated or read by
`Game::process_event`, excluding external-collaborator handles (window
context, GL ids, gui) and the fields only the frame step touches. -/
structure Game where
  in_focus : Bool
  scale_factor : Q
  screen_size : Vec2
  input : Input
  mode : GameMode
deriving DecidableEq, Repr

/-- The "free camera" condition of the current mode (the
`EditorState::free_camera` flag when in editor mode). -/
def Game.freeCamera (g : Game) : Bool :=
  match g.mode with
  | GameMode.Editor state _ => state.free_camera
  | _ => false

/-- Embedding of `glutin::event::MouseButton` (platform mouse button). -/
inductive PlatformMouseButton where
  | Left
  | Right
  | Middle
  | Other
deriving DecidableEq, Repr

/-- The platform events handled by `Game::process_event`
(src/main.rs lines 323-458), restricted to the arms that mutate the state
modelled here.  The egui-side `gui_input` mutations those arms also
perform are external-collaborator effects and are not modelled;
`ReceivedCharacter` only feeds the gui and is omitted;
`MainEventsCleared` runs the per-frame step, modelled separately by
`drawEditor`. -/
inductive PlatformEvent where
  | CloseRequested
  | ScaleFactorChanged (scale_factor : Q)
  | ModifiersChanged (m : Modifiers)
  | CursorMoved (position : Vec2)
  | MouseInput (button : PlatformMouseButton) (pressed : Bool)
  | Focused (focused : Bool)
  | KeyboardInput (virtual_key_code : VirtualKeyCode) (pressed : Bool)
  | MouseMotion (delta : Vec2)
  | MouseWheel (line_delta : Vec2)
deriving DecidableEq, Repr

/-- Embedding of `Game::process_event` (src/main.rs lines 323-458), event-mutation
arms.  Note the `DeviceEvent::MouseMotion` arm is guarded only by
`self.in_focus` (a `match` guard; without focus the event falls through
to the no-op wildcard arm). -/
def Game.processEvent (g : Game) : PlatformEvent → Game
  | PlatformEvent.CloseRequested =>
      { g with input.should_exit := true }
  | PlatformEvent.ScaleFactorChanged f =>
      { g with scale_factor := f }
  | PlatformEvent.ModifiersChanged m =>
      { g with input.modifiers := m }
  | PlatformEvent.CursorMoved position =>
      let pointer := position / g.scale_factor
      { g with input.pointer := pointer, input.pointer_moved := true }
  | PlatformEvent.MouseInput button pressed =>
      match button with
      | PlatformMouseButton.Left => { g with input.mouse_buttons.primary := pressed }
      | PlatformMouseButton.Right => { g with input.mouse_buttons.secondary := pressed }
      | PlatformMouseButton.Middle => { g with input.mouse_buttons.middle := pressed }
      | PlatformMouseButton.Other => g
  | PlatformEvent.Focused focused =>
      { g with in_focus := focused, input.modifiers := Modifiers.default }
  | PlatformEvent.KeyboardInput vk pressed =>
      match vk with
      | VirtualKeyCode.W => { g with input.forward := pressed }
      | VirtualKeyCode.A => { g with input.left := pressed }
      | VirtualKeyCode.S => { g with input.back := pressed }
      | VirtualKeyCode.D => { g with input.right := pressed }
      | _ => g
  | PlatformEvent.MouseMotion delta =>
      if g.in_focus then
        let d := delta / g.scale_factor
        { g with
          input.pointer_delta := g.input.pointer_delta + d
          input.pointer_moved := true }
      else g
  | PlatformEvent.MouseWheel line_delta =>
      let scroll_delta := line_delta / g.scale_factor
      { g with
        input.scroll_delta := g.input.scroll_delta + scroll_delta
        input.scrolled := true }

/-- Embedding of `camera::Movement` (module not under src/; the variants are those
`Game::draw_editor` uses: `Forward`, `Left`, `Backward`, `Right`). -/
inductive Movement where
  | Forward
  | Backward
  | Left
  | Right
deriving DecidableEq, Repr

/-- The brush, as read/written through `self.terrain.brush.size`
(terrain.rs not under src/; only the `size` field is used by
src/main.rs). -/
structure Brush where
  size : Q
deriving DecidableEq, Repr

/-- The `Terrain` fields src/main.rs reads or writes, over an abstract
height-field type `H` (terrain.rs is not under src/): the height-field,
the cursor, the brush. -/
structure Terrain (H : Type) where
  heights : H
  cursor : Cursor
  brush : Brush
deriving DecidableEq, Repr

/-- Embedding of `TransformsUBO` (src/main.rs lines 97-104), over an abstract 4x4
matrix type `M`. -/
structure TransformsUBO (M : Type) where
  mvp : M
  proj : M
  view : M
  model : M
  sun_vp : M
deriving DecidableEq, Repr

/-- The operations `Game::draw_editor` calls on modules not under src/
(camera.rs, ray.rs, terrain.rs) and on the external GUI collaborator,
abstracted as parameters over an abstract camera type `C`, matrix type
`M`, ray type `R` and height-field type `H`; the claims proved over
`drawEditor` hold for every instantiation, so they do not depend on these
functions' internals.  `gui_should_exit` / `gui_wants_input` are the
booleans `gui.layout_and_interact` / `gui.wants_input` report this frame.
`shape_terrain` is `Modelled from the spec:` §4.4 — sculpting "mutate[s]
height samples within the brush's radius" (plus derived normals), so the
missing `Terrain::shape_terrain` is abstracted as a function of the
height-field, the elapsed time and the raise/lower sign that returns the
new height-field (it does not touch the cursor or the brush). -/
structure Env (C M R H : Type) where
  gui_should_exit : Bool
  gui_wants_input : Bool
  set_speed_boost : C → Bool → C
  go : C → Movement → Q → C
  rotate : C → Q → Q → C
  get_view_matrix : C → M
  get_projection_matrix : C → M
  matMul : M → M → M
  get_ray_through_pixel : C → Vec2 → R
  intersect_with_ray : H → R → Option Vec3
  shape_terrain : H → Q → Bool → H

/-- Labels for the four steps of the per-frame editor sequence named by
the ordering claim; the step functions below append a label at exactly
the source location of the corresponding operation. -/
inductive Phase where
  | inputConsulted
  | cameraUpdated
  | rayCast
  | sculptTerrain
deriving DecidableEq, Repr

/-- Position of a phase in the claimed order. -/
def Phase.rank : Phase → ℕ
  | Phase.inputConsulted => 0
  | Phase.cameraUpdated => 1
  | Phase.rayCast => 2
  | Phase.sculptTerrain => 3

/-- The fields of `Game` (src/main.rs) that `Game::draw_editor` reads or
writes, besides the GL/window/gui handles. -/
structure EState (C M H : Type) where
  input : Input
  old_input : Input
  camera : C
  terrain : Terrain H
  transforms_data : TransformsUBO M

/-- One in-flight frame of `Game::draw_editor`: the mutable game state,
the editor state, the frame's externally visible effects (whether the
transforms uniform buffer was written, whether the window cursor was made
visible), and the trace of `Phase` labels. -/
structure Frame (C M H : Type) where
  st : EState C M H
  state : EditorState
  wrote_ubo : Bool
  set_cursor_visible : Bool
  trace : List Phase

/-- Embedding of `f32::clamp(lo, hi)` on non-NaN values. -/
def clampQ (x lo hi : Q) : Q :=
  if x < lo then lo else if x > hi then hi else x

/-- The transform block recomputation of src/main.rs lines 528-535:
`view` and `proj` from the camera, `mvp = proj * view * model` with the
freshly assigned `proj`/`view` and the stored `model`; `model` and
`sun_vp` keep their stored values. -/
def updatedTransforms {C M R H : Type} (env : Env C M R H) (c : C)
    (t : TransformsUBO M) : TransformsUBO M :=
  let view := env.get_view_matrix c
  let proj := env.get_projection_matrix c
  { t with
    view := view
    proj := proj
    mvp := env.matMul (env.matMul proj view) t.model }

/-- src/main.rs lines 485-489: `gui.layout_and_interact` runs first; if it
reports exit, `input.should_exit` is set. -/
def guiExitStep {C M R H : Type} (env : Env C M R H) (f : Frame C M H) :
    Frame C M H :=
  if env.gui_should_exit then { f with st.input.should_exit := true } else f

/-- src/main.rs lines 491-494 (the `gui.wants_input()` branch): hide the
terrain cursor and make the window cursor visible; nothing else. -/
def guiCapturedStep {C M H : Type} (f : Frame C M H) : Frame C M H :=
  { f with
    st.terrain.cursor := vec2_infinity
    set_cursor_visible := true }

/-- src/main.rs lines 496-498: consult the accumulated input —
`state.free_camera = input.mouse_buttons.secondary`,
`camera.speed_boost = input.modifiers.shift`. -/
def editorInputStep {C M R H : Type} (env : Env C M R H) (f : Frame C M H) :
    Frame C M H :=
  { f with
    state := { free_camera := f.st.input.mouse_buttons.secondary }
    st.camera := env.set_speed_boost f.st.camera f.st.input.modifiers.shift
    trace := f.trace ++ [Phase.inputConsulted] }

/-- src/main.rs lines 500-526: when free camera is on, move along each
held direction (`Forward`, `Left`, `Backward`, `Right`, in source order)
and rotate by the pointer delta when the pointer moved; each applied
movement sets `camera_moved`. -/
def editorCameraStep {C M R H : Type} (env : Env C M R H) (dt : Q)
    (f : Frame C M H) : Frame C M H :=
  if f.state.free_camera then
    let f :=
      if f.st.input.forward then
        { f with
          st.camera := env.go f.st.camera Movement.Forward dt
          st.input.camera_moved := true
          trace := f.trace ++ [Phase.cameraUpdated] }
      else f
    let f :=
      if f.st.input.left then
        { f with
          st.camera := env.go f.st.camera Movement.Left dt
          st.input.camera_moved := true
          trace := f.trace ++ [Phase.cameraUpdated] }
      else f
    let f :=
      if f.st.input.back then
        { f with
          st.camera := env.go f.st.camera Movement.Backward dt
          st.input.camera_moved := true
          trace := f.trace ++ [Phase.cameraUpdated] }
      else f
    let f :=
      if f.st.input.right then
        { f with
          st.camera := env.go f.st.camera Movement.Right dt
          st.input.camera_moved := true
          trace := f.trace ++ [Phase.cameraUpdated] }
      else f
    let f :=
      if f.st.input.pointer_moved then
        { f with
          st.camera :=
            env.rotate f.st.camera f.st.input.pointer_delta.x
              f.st.input.pointer_delta.y
          st.input.camera_moved := true
          trace := f.trace ++ [Phase.cameraUpdated] }
      else f
    f
  else f

/-- src/main.rs lines 528-544: when `camera_moved` is set, recompute the
transform block and write it to the uniform buffer
(`gl::NamedBufferSubData`, recorded as `wrote_ubo`). -/
def editorTransformsStep {C M R H : Type} (env : Env C M R H)
    (f : Frame C M H) : Frame C M H :=
  if f.st.input.camera_moved then
    { f with
      st.transforms_data := updatedTransforms env f.st.camera f.st.transforms_data
      wrote_ubo := true }
  else f

/-- src/main.rs lines 546-553: when the pointer or the camera moved, cast
the ray through the pointer pixel and set the terrain cursor to the
`(x, z)` projection of the intersection point, or to the infinity
sentinel when there is none. -/
def editorCursorStep {C M R H : Type} (env : Env C M R H)
    (f : Frame C M H) : Frame C M H :=
  if f.st.input.pointer_moved || f.st.input.camera_moved then
    let ray := env.get_ray_through_pixel f.st.camera f.st.input.pointer
    let cursor :=
      match env.intersect_with_ray f.st.terrain.heights ray with
      | some point => Cursor.fin point.x point.z
      | none => vec2_infinity
    { f with
      st.terrain.cursor := cursor
      trace := f.trace ++ [Phase.rayCast] }
  else f

/-- src/main.rs lines 555-559: on scroll, resize the brush, clamped to
`[0.1, 200.0]`. -/
def editorBrushStep {C M H : Type} (f : Frame C M H) : Frame C M H :=
  if f.st.input.scrolled then
    let y := f.st.input.scroll_delta.y
    { f with
      st.terrain.brush.size :=
        clampQ (f.st.terrain.brush.size - y * (3 / 2)) (1 / 10) 200 }
  else f

/-- src/main.rs lines 561-564: when the primary button is held and the
cursor is finite, sculpt the terrain; the raise/lower sign is
`!modifiers.ctrl`. -/
def editorSculptStep {C M R H : Type} (env : Env C M R H) (dt : Q)
    (f : Frame C M H) : Frame C M H :=
  if f.st.input.mouse_buttons.primary && f.st.terrain.cursor.is_finite then
    { f with
      st.terrain.heights :=
        env.shape_terrain f.st.terrain.heights dt (!f.st.input.modifiers.ctrl)
      trace := f.trace ++ [Phase.sculptTerrain] }
  else f

/-- src/main.rs line 579: `self.old_input = self.input.renew()`. -/
def editorRenewStep {C M H : Type} (f : Frame C M H) : Frame C M H :=
  let r := f.st.input.renew
  { f with
    st.old_input := r.1
    st.input := r.2 }

/-- The `else` branch of `Game::draw_editor` (src/main.rs lines 495-565):
input consultation, camera movement, transforms update, cursor ray-cast,
brush resize, sculpt — in source order. -/
def editorPipeline {C M R H : Type} (env : Env C M R H) (dt : Q)
    (f : Frame C M H) : Frame C M H :=
  editorSculptStep env dt
    (editorBrushStep
      (editorCursorStep env
        (editorTransformsStep env
          (editorCameraStep env dt
            (editorInputStep env f)))))

/-- Embedding of `Game::draw_editor` (src/main.rs lines 479-582) as a state
transition: the gui interaction result is applied, then either the
gui-captured branch runs, or the input/camera/transforms/cursor/brush/
sculpt sequence, in source order; finally the input snapshot is renewed.
The draw calls (`terrain.draw`, `skybox.draw`, `gui.draw`,
`swap_buffers`) are external rendering effects with no modelled state,
and the `mode` argument is returned unchanged by the source, so it is
not threaded through. -/
def drawEditor {C M R H : Type} (env : Env C M R H) (dt : Q)
    (st : EState C M H) (state : EditorState) : Frame C M H :=
  let f0 : Frame C M H :=
    { st := st, state := state, wrote_ubo := false,
      set_cursor_visible := false, trace := [] }
  let f1 := guiExitStep env f0
  let f2 :=
    if env.gui_wants_input then
      guiCapturedStep f1
    else
      editorPipeline env dt f1
  editorRenewStep f2

/-- A concrete instantiation of the abstract environment (camera, matrix,
ray and height-field all rationals) for evaluating the frame step on
concrete inputs; the GUI is not capturing input. -/
def envNoGui : Env Q Q Q Q where
  gui_should_exit := false
  gui_wants_input := false
  set_speed_boost := fun c _ => c
  go := fun c _ d => c + d
  rotate := fun c dx dy => c + dx + dy
  get_view_matrix := fun c => c
  get_projection_matrix := fun c => c + 1
  matMul := fun a b => a * b
  get_ray_through_pixel := fun c p => c + p.x
  intersect_with_ray := fun h r => some ⟨h + r, 2, h - r⟩
  shape_terrain := fun h d raise => if raise then h + d else h - d

/-- The same concrete environment with the GUI capturing input. -/
def envGuiCapturing : Env Q Q Q Q :=
  { envNoGui with gui_wants_input := true }

/-- A concrete input snapshot. -/
def exInput : Input where
  forward := false
  back := false
  left := false
  right := false
  pointer := ⟨3, 4⟩
  pointer_moved := true
  pointer_delta := ⟨1, 2⟩
  scroll_delta := ⟨0, 5⟩
  scrolled := true
  camera_moved := true
  mouse_buttons := ⟨true, false, false⟩
  modifiers := ⟨false, false, false, false⟩
  should_exit := false
  time := 0

/-- A concrete input snapshot with nothing accumulated. -/
def exInputQuiet : Input where
  forward := false
  back := false
  left := false
  right := false
  pointer := ⟨3, 4⟩
  pointer_moved := false
  pointer_delta := ⟨0, 0⟩
  scroll_delta := ⟨0, 0⟩
  scrolled := false
  camera_moved := false
  mouse_buttons := ⟨false, false, false⟩
  modifiers := ⟨false, false, false, false⟩
  should_exit := false
  time := 0

/-- A concrete editor-side game state. -/
def exEState : EState Q Q Q where
  input := exInput
  old_input := exInputQuiet
  camera := 0
  terrain := { heights := 10, cursor := Cursor.fin 1 2, brush := ⟨50⟩ }
  transforms_data := ⟨1, 2, 3, 4, 5⟩

/-- A concrete editor state. -/
def exEditorState : EditorState := ⟨false⟩

/-- A concrete `Game` state: window in focus, editor mode with the free
camera OFF, no pointer delta accumulated yet. -/
def exGame : Game where
  in_focus := true
  scale_factor := 1
  screen_size := ⟨100, 100⟩
  input := exInputQuiet
  mode := GameMode.Editor ⟨false⟩ (EditorMode.Terrain TerrainTool.Sculpt)

/-- A phase trace is ordered and bounded: consecutive labels have
non-decreasing rank, and every label has rank at most `n`. -/
def TraceLE (n : ℕ) (l : List Phase) : Prop :=
  l.Pairwise (fun a b => a.rank ≤ b.rank) ∧ ∀ p ∈ l, p.rank ≤ n

-- ======================= theorems for the claims =======================

-- Helper lemmas: how each step of `draw_editor` acts on each field.

section StepLemmas

variable {C M R H : Type} (env : Env C M R H) (dt : Q) (f : Frame C M H)

theorem guiExitStep_st_input :
    (guiExitStep env f).st.input =
      { f.st.input with
        should_exit := f.st.input.should_exit || env.gui_should_exit } := by
  unfold guiExitStep; split_ifs with h <;> simp [h]

theorem guiExitStep_st_camera : (guiExitStep env f).st.camera = f.st.camera := by
  unfold guiExitStep; split <;> rfl

theorem guiExitStep_st_terrain : (guiExitStep env f).st.terrain = f.st.terrain := by
  unfold guiExitStep; split <;> rfl

theorem guiExitStep_st_transforms_data :
    (guiExitStep env f).st.transforms_data = f.st.transforms_data := by
  unfold guiExitStep; split <;> rfl

theorem guiExitStep_state : (guiExitStep env f).state = f.state := by
  unfold guiExitStep; split <;> rfl

theorem guiExitStep_wrote_ubo : (guiExitStep env f).wrote_ubo = f.wrote_ubo := by
  unfold guiExitStep; split <;> rfl

theorem guiExitStep_trace : (guiExitStep env f).trace = f.trace := by
  unfold guiExitStep; split <;> rfl

theorem guiCapturedStep_st_camera : (guiCapturedStep f).st.camera = f.st.camera := rfl

theorem guiCapturedStep_st_terrain_heights :
    (guiCapturedStep f).st.terrain.heights = f.st.terrain.heights := rfl

theorem guiCapturedStep_st_terrain_brush :
    (guiCapturedStep f).st.terrain.brush = f.st.terrain.brush := rfl

theorem guiCapturedStep_st_terrain_cursor :
    (guiCapturedStep f).st.terrain.cursor = vec2_infinity := rfl

theorem guiCapturedStep_st_input : (guiCapturedStep f).st.input = f.st.input := rfl

theorem guiCapturedStep_st_transforms_data :
    (guiCapturedStep f).st.transforms_data = f.st.transforms_data := rfl

theorem guiCapturedStep_wrote_ubo : (guiCapturedStep f).wrote_ubo = f.wrote_ubo := rfl

theorem guiCapturedStep_trace : (guiCapturedStep f).trace = f.trace := rfl

theorem editorInputStep_st_input : (editorInputStep env f).st.input = f.st.input := rfl

theorem editorInputStep_st_terrain :
    (editorInputStep env f).st.terrain = f.st.terrain := rfl

theorem editorInputStep_st_transforms_data :
    (editorInputStep env f).st.transforms_data = f.st.transforms_data := rfl

theorem editorInputStep_wrote_ubo :
    (editorInputStep env f).wrote_ubo = f.wrote_ubo := rfl

theorem editorInputStep_trace :
    (editorInputStep env f).trace = f.trace ++ [Phase.inputConsulted] := rfl

theorem editorInputStep_state :
    (editorInputStep env f).state =
      { free_camera := f.st.input.mouse_buttons.secondary } := rfl

theorem editorCameraStep_spec :
    (editorCameraStep env dt f).st.terrain = f.st.terrain ∧
    (editorCameraStep env dt f).st.transforms_data = f.st.transforms_data ∧
    (editorCameraStep env dt f).state = f.state ∧
    (editorCameraStep env dt f).wrote_ubo = f.wrote_ubo ∧
    (editorCameraStep env dt f).st.input =
      { f.st.input with
        camera_moved := f.st.input.camera_moved ||
          (f.state.free_camera &&
            (f.st.input.forward || f.st.input.left || f.st.input.back ||
             f.st.input.right || f.st.input.pointer_moved)) } := by
  rcases f with ⟨⟨inp, old, cam, ter, tra⟩, fstate, wu, scv, tr⟩
  rcases inp with ⟨fw, bk, lf, rt, ptr, pm, pd, sd, sc, cm, mb, mo, se, ti⟩
  rcases fstate with ⟨fc⟩
  cases fc <;> cases fw <;> cases lf <;> cases bk <;> cases rt <;> cases pm <;>
    simp [editorCameraStep]

theorem editorCameraStep_st_terrain :
    (editorCameraStep env dt f).st.terrain = f.st.terrain :=
  (editorCameraStep_spec env dt f).1

theorem editorCameraStep_st_transforms_data :
    (editorCameraStep env dt f).st.transforms_data = f.st.transforms_data :=
  (editorCameraStep_spec env dt f).2.1

theorem editorCameraStep_state : (editorCameraStep env dt f).state = f.state :=
  (editorCameraStep_spec env dt f).2.2.1

theorem editorCameraStep_wrote_ubo :
    (editorCameraStep env dt f).wrote_ubo = f.wrote_ubo :=
  (editorCameraStep_spec env dt f).2.2.2.1

theorem editorCameraStep_st_input :
    (editorCameraStep env dt f).st.input =
      { f.st.input with
        camera_moved := f.st.input.camera_moved ||
          (f.state.free_camera &&
            (f.st.input.forward || f.st.input.left || f.st.input.back ||
             f.st.input.right || f.st.input.pointer_moved)) } :=
  (editorCameraStep_spec env dt f).2.2.2.2

theorem editorTransformsStep_st_transforms_data :
    (editorTransformsStep env f).st.transforms_data =
      (if f.st.input.camera_moved then
        updatedTransforms env f.st.camera f.st.transforms_data
      else f.st.transforms_data) := by
  simp only [editorTransformsStep]; split_ifs <;> rfl

theorem editorTransformsStep_wrote_ubo :
    (editorTransformsStep env f).wrote_ubo =
      (f.wrote_ubo || f.st.input.camera_moved) := by
  simp only [editorTransformsStep]; split_ifs with h <;> simp [h]

theorem editorTransformsStep_st_input :
    (editorTransformsStep env f).st.input = f.st.input := by
  simp only [editorTransformsStep]; split_ifs <;> rfl

theorem editorTransformsStep_st_camera :
    (editorTransformsStep env f).st.camera = f.st.camera := by
  simp only [editorTransformsStep]; split_ifs <;> rfl

theorem editorTransformsStep_st_terrain :
    (editorTransformsStep env f).st.terrain = f.st.terrain := by
  simp only [editorTransformsStep]; split_ifs <;> rfl

theorem editorTransformsStep_state :
    (editorTransformsStep env f).state = f.state := by
  simp only [editorTransformsStep]; split_ifs <;> rfl

theorem editorTransformsStep_trace :
    (editorTransformsStep env f).trace = f.trace := by
  simp only [editorTransformsStep]; split_ifs <;> rfl

theorem editorCursorStep_st_terrain_cursor :
    (editorCursorStep env f).st.terrain.cursor =
      (if f.st.input.pointer_moved || f.st.input.camera_moved then
        (match env.intersect_with_ray f.st.terrain.heights
            (env.get_ray_through_pixel f.st.camera f.st.input.pointer) with
         | some point => Cursor.fin point.x point.z
         | none => vec2_infinity)
      else f.st.terrain.cursor) := by
  simp only [editorCursorStep]; split_ifs <;> rfl

theorem editorCursorStep_st_terrain_heights :
    (editorCursorStep env f).st.terrain.heights = f.st.terrain.heights := by
  simp only [editorCursorStep]; split_ifs <;> rfl

theorem editorCursorStep_st_terrain_brush :
    (editorCursorStep env f).st.terrain.brush = f.st.terrain.brush := by
  simp only [editorCursorStep]; split_ifs <;> rfl

theorem editorCursorStep_st_input :
    (editorCursorStep env f).st.input = f.st.input := by
  simp only [editorCursorStep]; split_ifs <;> rfl

theorem editorCursorStep_st_camera :
    (editorCursorStep env f).st.camera = f.st.camera := by
  simp only [editorCursorStep]; split_ifs <;> rfl

theorem editorCursorStep_st_transforms_data :
    (editorCursorStep env f).st.transforms_data = f.st.transforms_data := by
  simp only [editorCursorStep]; split_ifs <;> rfl

theorem editorCursorStep_state : (editorCursorStep env f).state = f.state := by
  simp only [editorCursorStep]; split_ifs <;> rfl

theorem editorCursorStep_wrote_ubo :
    (editorCursorStep env f).wrote_ubo = f.wrote_ubo := by
  simp only [editorCursorStep]; split_ifs <;> rfl

theorem editorBrushStep_st_terrain_brush_size :
    (editorBrushStep f).st.terrain.brush.size =
      (if f.st.input.scrolled then
        clampQ (f.st.terrain.brush.size - f.st.input.scroll_delta.y * (3 / 2))
          (1 / 10) 200
      else f.st.terrain.brush.size) := by
  simp only [editorBrushStep]; split_ifs <;> rfl

theorem editorBrushStep_st_terrain_heights :
    (editorBrushStep f).st.terrain.heights = f.st.terrain.heights := by
  simp only [editorBrushStep]; split_ifs <;> rfl

theorem editorBrushStep_st_terrain_cursor :
    (editorBrushStep f).st.terrain.cursor = f.st.terrain.cursor := by
  simp only [editorBrushStep]; split_ifs <;> rfl

theorem editorBrushStep_st_input :
    (editorBrushStep f).st.input = f.st.input := by
  simp only [editorBrushStep]; split_ifs <;> rfl

theorem editorBrushStep_st_camera :
    (editorBrushStep f).st.camera = f.st.camera := by
  simp only [editorBrushStep]; split_ifs <;> rfl

theorem editorBrushStep_st_transforms_data :
    (editorBrushStep f).st.transforms_data = f.st.transforms_data := by
  simp only [editorBrushStep]; split_ifs <;> rfl

theorem editorBrushStep_state : (editorBrushStep f).state = f.state := by
  simp only [editorBrushStep]; split_ifs <;> rfl

theorem editorBrushStep_wrote_ubo :
    (editorBrushStep f).wrote_ubo = f.wrote_ubo := by
  simp only [editorBrushStep]; split_ifs <;> rfl

theorem editorBrushStep_trace : (editorBrushStep f).trace = f.trace := by
  simp only [editorBrushStep]; split_ifs <;> rfl

theorem editorSculptStep_st_terrain_heights :
    (editorSculptStep env dt f).st.terrain.heights =
      (if f.st.input.mouse_buttons.primary && f.st.terrain.cursor.is_finite then
        env.shape_terrain f.st.terrain.heights dt (!f.st.input.modifiers.ctrl)
      else f.st.terrain.heights) := by
  simp only [editorSculptStep]; split_ifs <;> rfl

theorem editorSculptStep_st_terrain_cursor :
    (editorSculptStep env dt f).st.terrain.cursor = f.st.terrain.cursor := by
  simp only [editorSculptStep]; split_ifs <;> rfl

theorem editorSculptStep_st_terrain_brush :
    (editorSculptStep env dt f).st.terrain.brush = f.st.terrain.brush := by
  simp only [editorSculptStep]; split_ifs <;> rfl

theorem editorSculptStep_st_input :
    (editorSculptStep env dt f).st.input = f.st.input := by
  simp only [editorSculptStep]; split_ifs <;> rfl

theorem editorSculptStep_st_camera :
    (editorSculptStep env dt f).st.camera = f.st.camera := by
  simp only [editorSculptStep]; split_ifs <;> rfl

theorem editorSculptStep_st_transforms_data :
    (editorSculptStep env dt f).st.transforms_data = f.st.transforms_data := by
  simp only [editorSculptStep]; split_ifs <;> rfl

theorem editorSculptStep_state : (editorSculptStep env dt f).state = f.state := by
  simp only [editorSculptStep]; split_ifs <;> rfl

theorem editorSculptStep_wrote_ubo :
    (editorSculptStep env dt f).wrote_ubo = f.wrote_ubo := by
  simp only [editorSculptStep]; split_ifs <;> rfl

theorem editorRenewStep_st_old_input :
    (editorRenewStep f).st.old_input = f.st.input := rfl

theorem editorRenewStep_st_terrain :
    (editorRenewStep f).st.terrain = f.st.terrain := rfl

theorem editorRenewStep_st_camera :
    (editorRenewStep f).st.camera = f.st.camera := rfl

theorem editorRenewStep_st_transforms_data :
    (editorRenewStep f).st.transforms_data = f.st.transforms_data := rfl

theorem editorRenewStep_wrote_ubo :
    (editorRenewStep f).wrote_ubo = f.wrote_ubo := rfl

theorem editorRenewStep_trace : (editorRenewStep f).trace = f.trace := rfl

theorem editorRenewStep_state : (editorRenewStep f).state = f.state := rfl

end StepLemmas

-- Helper lemmas: ordered-and-bounded phase traces.

theorem traceLE_nil (n : ℕ) : TraceLE n [] := ⟨List.Pairwise.nil, by simp⟩

theorem traceLE_mono {m n : ℕ} (h : m ≤ n) {l : List Phase} (hl : TraceLE m l) :
    TraceLE n l :=
  ⟨hl.1, fun p hp => le_trans (hl.2 p hp) h⟩

theorem traceLE_append_of_rank {n : ℕ} {l l2 : List Phase}
    (hl : TraceLE n l) (h2 : ∀ p ∈ l2, Phase.rank p = n) :
    TraceLE n (l ++ l2) := by
  constructor
  · refine List.pairwise_append.mpr ⟨hl.1, ?_, ?_⟩
    · induction l2 with
      | nil => exact List.Pairwise.nil
      | cons a as ih =>
          refine List.Pairwise.cons ?_ (ih ?_)
          · intro b hb
            rw [h2 a (by simp), h2 b (by simp [hb])]
          · intro p hp
            exact h2 p (by simp [hp])
    · intro a ha b hb
      rw [h2 b hb]
      exact hl.2 a ha
  · intro p hp
    rcases List.mem_append.mp hp with h | h
    · exact hl.2 p h
    · rw [h2 p h]

section TraceStepLemmas

variable {C M R H : Type} (env : Env C M R H) (dt : Q) (f : Frame C M H)

theorem editorInputStep_traceLE (h : TraceLE 0 f.trace) :
    TraceLE 0 (editorInputStep env f).trace := by
  rw [editorInputStep_trace]
  exact traceLE_append_of_rank h (by decide)

theorem editorCameraStep_traceLE (h : TraceLE 1 f.trace) :
    TraceLE 1 (editorCameraStep env dt f).trace := by
  rcases f with ⟨⟨inp, old, cam, ter, tra⟩, fstate, wu, scv, tr⟩
  rcases inp with ⟨fw, bk, lf, rt, ptr, pm, pd, sd, sc, cm, mb, mo, se, ti⟩
  rcases fstate with ⟨fc⟩
  cases fc <;> cases fw <;> cases lf <;> cases bk <;> cases rt <;> cases pm <;>
    simp only [editorCameraStep] <;>
    (try simp) <;>
    first
      | exact h
      | exact traceLE_append_of_rank h (by decide)

theorem editorCursorStep_traceLE (h : TraceLE 2 f.trace) :
    TraceLE 2 (editorCursorStep env f).trace := by
  simp only [editorCursorStep]
  split_ifs
  · exact traceLE_append_of_rank h (by decide)
  · exact h

theorem editorSculptStep_traceLE (h : TraceLE 3 f.trace) :
    TraceLE 3 (editorSculptStep env dt f).trace := by
  simp only [editorSculptStep]
  split_ifs
  · exact traceLE_append_of_rank h (by decide)
  · exact h

theorem editorPipeline_traceLE (h : TraceLE 0 f.trace) :
    TraceLE 3 (editorPipeline env dt f).trace := by
  unfold editorPipeline
  have h1 := editorInputStep_traceLE env f h
  have h2 := editorCameraStep_traceLE env dt _ (traceLE_mono (by decide) h1)
  have h3 : TraceLE 1
      (editorTransformsStep env (editorCameraStep env dt (editorInputStep env f))).trace := by
    rw [editorTransformsStep_trace]; exact h2
  have h4 := editorCursorStep_traceLE env _ (traceLE_mono (by decide) h3)
  have h5 : TraceLE 2
      (editorBrushStep (editorCursorStep env
        (editorTransformsStep env (editorCameraStep env dt (editorInputStep env f))))).trace := by
    rw [editorBrushStep_trace]; exact h4
  exact editorSculptStep_traceLE env dt _ (traceLE_mono (by decide) h5)

end TraceStepLemmas

-- Helper lemmas: end-to-end behaviour of the non-captured pipeline.

section PipelineLemmas

variable {C M R H : Type} (env : Env C M R H) (dt : Q) (f : Frame C M H)

theorem editorPipeline_st_terrain_heights :
    (editorPipeline env dt f).st.terrain.heights =
      (if f.st.input.mouse_buttons.primary &&
          (editorPipeline env dt f).st.terrain.cursor.is_finite then
        env.shape_terrain f.st.terrain.heights dt (!f.st.input.modifiers.ctrl)
      else f.st.terrain.heights) := by
  simp only [editorPipeline, editorSculptStep_st_terrain_heights,
    editorSculptStep_st_terrain_cursor, editorBrushStep_st_terrain_heights,
    editorBrushStep_st_terrain_cursor, editorBrushStep_st_input,
    editorCursorStep_st_terrain_heights, editorCursorStep_st_input,
    editorCursorStep_st_terrain_cursor,
    editorTransformsStep_st_terrain, editorTransformsStep_st_input,
    editorCameraStep_st_terrain, editorCameraStep_st_input,
    editorInputStep_st_terrain, editorInputStep_st_input]

theorem editorPipeline_st_terrain_cursor :
    (editorPipeline env dt f).st.terrain.cursor =
      (if f.st.input.pointer_moved || (editorPipeline env dt f).st.input.camera_moved then
        (match env.intersect_with_ray f.st.terrain.heights
            (env.get_ray_through_pixel (editorPipeline env dt f).st.camera
              f.st.input.pointer) with
         | some point => Cursor.fin point.x point.z
         | none => vec2_infinity)
      else f.st.terrain.cursor) := by
  simp only [editorPipeline, editorSculptStep_st_terrain_cursor,
    editorSculptStep_st_input, editorSculptStep_st_camera,
    editorBrushStep_st_terrain_cursor, editorBrushStep_st_input,
    editorBrushStep_st_camera,
    editorCursorStep_st_terrain_cursor, editorCursorStep_st_input,
    editorCursorStep_st_camera,
    editorTransformsStep_st_terrain, editorTransformsStep_st_input,
    editorTransformsStep_st_camera,
    editorCameraStep_st_terrain, editorCameraStep_st_input,
    editorInputStep_st_terrain, editorInputStep_st_input]

theorem editorPipeline_wrote_ubo :
    (editorPipeline env dt f).wrote_ubo =
      (f.wrote_ubo || (editorPipeline env dt f).st.input.camera_moved) := by
  simp only [editorPipeline, editorSculptStep_wrote_ubo, editorSculptStep_st_input,
    editorBrushStep_wrote_ubo, editorBrushStep_st_input,
    editorCursorStep_wrote_ubo, editorCursorStep_st_input,
    editorTransformsStep_wrote_ubo, editorTransformsStep_st_input,
    editorCameraStep_wrote_ubo, editorCameraStep_st_input,
    editorInputStep_wrote_ubo, editorInputStep_st_input]

theorem editorPipeline_st_transforms_data :
    (editorPipeline env dt f).st.transforms_data =
      (if (editorPipeline env dt f).st.input.camera_moved then
        updatedTransforms env (editorPipeline env dt f).st.camera
          f.st.transforms_data
      else f.st.transforms_data) := by
  simp only [editorPipeline, editorSculptStep_st_transforms_data,
    editorSculptStep_st_input, editorSculptStep_st_camera,
    editorBrushStep_st_transforms_data, editorBrushStep_st_input,
    editorBrushStep_st_camera,
    editorCursorStep_st_transforms_data, editorCursorStep_st_input,
    editorCursorStep_st_camera,
    editorTransformsStep_st_transforms_data, editorTransformsStep_st_input,
    editorTransformsStep_st_camera,
    editorCameraStep_st_transforms_data, editorCameraStep_st_input,
    editorInputStep_st_transforms_data, editorInputStep_st_input]

theorem editorPipeline_st_brush_size :
    (editorPipeline env dt f).st.terrain.brush.size =
      (if f.st.input.scrolled then
        clampQ (f.st.terrain.brush.size - f.st.input.scroll_delta.y * (3 / 2))
          (1 / 10) 200
      else f.st.terrain.brush.size) := by
  simp only [editorPipeline, editorSculptStep_st_terrain_brush,
    editorBrushStep_st_terrain_brush_size, editorBrushStep_st_input,
    editorCursorStep_st_terrain_brush, editorCursorStep_st_input,
    editorTransformsStep_st_terrain, editorTransformsStep_st_input,
    editorCameraStep_st_terrain, editorCameraStep_st_input,
    editorInputStep_st_terrain, editorInputStep_st_input]

theorem editorPipeline_st_input :
    (editorPipeline env dt f).st.input =
      { f.st.input with
        camera_moved := f.st.input.camera_moved ||
          (f.st.input.mouse_buttons.secondary &&
            (f.st.input.forward || f.st.input.left || f.st.input.back ||
             f.st.input.right || f.st.input.pointer_moved)) } := by
  simp only [editorPipeline, editorSculptStep_st_input, editorBrushStep_st_input,
    editorCursorStep_st_input, editorTransformsStep_st_input,
    editorCameraStep_st_input, editorInputStep_st_input, editorInputStep_state]

end PipelineLemmas

/-- C7: the translation from platform virtual key codes to the semantic
`Key` enumeration is total (it is a function into `Key`, with no error
path), and it yields `Key::Unknown` exactly on the codes that no arm of
the match maps — every mapped code yields its semantic key (a key other
than `Unknown`), every unmapped code yields the explicit `Unknown`
variant. -/
theorem key_translation_total_unknown_iff_unmapped :
    ∀ vk : VirtualKeyCode,
      Key.ofVirtualKeyCode vk = Key.Unknown ↔ VirtualKeyCode.unmapped vk = true := by
  intro vk
  cases vk <;> decide

/-- C10: the lossy mapping from semantic keys to GUI keys collapses each
top-row digit and the corresponding numpad digit to the same GUI key (so
the GUI packet cannot distinguish them), and it fails (omits the key)
exactly on `Tab`, the function keys `F1`–`F24`, and `Unknown`. -/
theorem egui_key_mapping_digit_collapse_and_failure_set :
    (∀ d : Fin 10,
        EguiKey.tryFromKey (Key.topRowDigit d) = EguiKey.tryFromKey (Key.numpadDigit d) ∧
        (EguiKey.tryFromKey (Key.topRowDigit d)).isSome = true) ∧
    (∀ k : Key, EguiKey.tryFromKey k = none ↔ Key.noEguiEquivalent k = true) := by
  refine ⟨by decide, ?_⟩
  intro k
  cases k <;> decide

/-- C6: on any frame in which the GUI reports that it is capturing input,
the core performs no pointer/camera handling: the camera state, the
brush, and the terrain heights are unchanged, and the terrain cursor is
set to the "infinite" sentinel (hide cursor). -/
theorem gui_capture_suppresses_core_input_handling {C M R H : Type}
    (env : Env C M R H) (dt : Q) (st : EState C M H) (state : EditorState)
    (h : env.gui_wants_input = true) :
    (drawEditor env dt st state).st.camera = st.camera ∧
    (drawEditor env dt st state).st.terrain.brush = st.terrain.brush ∧
    (drawEditor env dt st state).st.terrain.heights = st.terrain.heights ∧
    (drawEditor env dt st state).st.terrain.cursor = vec2_infinity := by
  simp only [drawEditor, h, if_true, guiExitStep, guiCapturedStep,
    editorRenewStep, Input.renew]
  split_ifs <;> simp

/-- Witness for C6 at a concrete capturing frame. -/
theorem gui_capture_suppresses_core_input_handling_witness :
    envGuiCapturing.gui_wants_input = true ∧
    ((drawEditor envGuiCapturing 1 exEState exEditorState).st.camera = exEState.camera ∧
     (drawEditor envGuiCapturing 1 exEState exEditorState).st.terrain.brush = exEState.terrain.brush ∧
     (drawEditor envGuiCapturing 1 exEState exEditorState).st.terrain.heights = exEState.terrain.heights ∧
     (drawEditor envGuiCapturing 1 exEState exEditorState).st.terrain.cursor = vec2_infinity) :=
  ⟨rfl, gui_capture_suppresses_core_input_handling envGuiCapturing 1 exEState exEditorState rfl⟩

-- Helper lemmas: resolving the gui branch of `drawEditor`.

theorem drawEditor_of_gui_true {C M R H : Type} (env : Env C M R H) (dt : Q)
    (st : EState C M H) (state : EditorState)
    (hg : env.gui_wants_input = true) :
    drawEditor env dt st state =
      editorRenewStep (guiCapturedStep (guiExitStep env
        { st := st, state := state, wrote_ubo := false,
          set_cursor_visible := false, trace := [] })) := by
  simp [drawEditor, hg]

theorem drawEditor_of_gui_false {C M R H : Type} (env : Env C M R H) (dt : Q)
    (st : EState C M H) (state : EditorState)
    (hg : env.gui_wants_input = false) :
    drawEditor env dt st state =
      editorRenewStep (editorPipeline env dt (guiExitStep env
        { st := st, state := state, wrote_ubo := false,
          set_cursor_visible := false, trace := [] })) := by
  simp [drawEditor, hg]

/-- C4: within every frame's editor step, the phase labels emitted at the
source locations of input consultation, camera update, ray-cast/cursor
update and terrain sculpting occur in non-decreasing rank order — no
later step precedes an earlier one. -/
theorem editor_frame_phase_order {C M R H : Type} (env : Env C M R H) (dt : Q)
    (st : EState C M H) (state : EditorState) :
    (drawEditor env dt st state).trace.Pairwise
      (fun a b => Phase.rank a ≤ Phase.rank b) := by
  cases hg : env.gui_wants_input
  · rw [drawEditor_of_gui_false env dt st state hg, editorRenewStep_trace]
    refine (editorPipeline_traceLE env dt _ ?_).1
    rw [guiExitStep_trace]
    exact traceLE_nil 0
  · rw [drawEditor_of_gui_true env dt st state hg, editorRenewStep_trace,
      guiCapturedStep_trace, guiExitStep_trace]
    exact List.Pairwise.nil

/-- C9: the brush is applied to the terrain exactly when the primary
mouse button is held and the frame's cursor is finite — never on a frame
whose cursor holds the non-finite sentinel, even if the button is held —
and the raise/lower sign passed to the sculpt operation is `!ctrl`. -/
theorem sculpt_iff_primary_button_and_finite_cursor {C M R H : Type}
    (env : Env C M R H) (dt : Q) (st : EState C M H) (state : EditorState) :
    (drawEditor env dt st state).st.terrain.heights =
      (if st.input.mouse_buttons.primary &&
          (drawEditor env dt st state).st.terrain.cursor.is_finite then
        env.shape_terrain st.terrain.heights dt (!st.input.modifiers.ctrl)
      else st.terrain.heights) := by
  cases hg : env.gui_wants_input
  · rw [drawEditor_of_gui_false env dt st state hg, editorRenewStep_st_terrain,
      editorPipeline_st_terrain_heights]
    simp [guiExitStep_st_terrain, guiExitStep_st_input]
  · rw [drawEditor_of_gui_true env dt st state hg, editorRenewStep_st_terrain]
    simp [guiCapturedStep_st_terrain_heights, guiCapturedStep_st_terrain_cursor,
      guiExitStep_st_terrain, Cursor.is_finite, vec2_infinity]

/-- C5 (amended): the transform block is recomputed and written to the
GPU buffer in a frame if and only if the GUI is not capturing input and
the `camera_moved` flag is set that frame; otherwise the stored transform
data is unchanged by the frame. -/
theorem transforms_written_iff_camera_moved_and_not_captured {C M R H : Type}
    (env : Env C M R H) (dt : Q) (st : EState C M H) (state : EditorState) :
    (drawEditor env dt st state).wrote_ubo =
      (!env.gui_wants_input &&
        (drawEditor env dt st state).st.old_input.camera_moved) ∧
    (drawEditor env dt st state).st.transforms_data =
      (if (drawEditor env dt st state).wrote_ubo then
        updatedTransforms env (drawEditor env dt st state).st.camera
          st.transforms_data
      else st.transforms_data) := by
  cases hg : env.gui_wants_input
  · have hw : (drawEditor env dt st state).wrote_ubo =
        (drawEditor env dt st state).st.old_input.camera_moved := by
      rw [drawEditor_of_gui_false env dt st state hg, editorRenewStep_wrote_ubo,
        editorRenewStep_st_old_input, editorPipeline_wrote_ubo,
        guiExitStep_wrote_ubo]
      simp
    refine ⟨by simp [hw, hg], ?_⟩
    rw [hw]
    have ht : (drawEditor env dt st state).st.transforms_data =
        (if (drawEditor env dt st state).st.old_input.camera_moved then
          updatedTransforms env (drawEditor env dt st state).st.camera
            st.transforms_data
        else st.transforms_data) := by
      rw [drawEditor_of_gui_false env dt st state hg,
        editorRenewStep_st_transforms_data, editorRenewStep_st_camera,
        editorRenewStep_st_old_input, editorPipeline_st_transforms_data,
        guiExitStep_st_transforms_data]
    exact ht
  · have hw : (drawEditor env dt st state).wrote_ubo = false := by
      rw [drawEditor_of_gui_true env dt st state hg, editorRenewStep_wrote_ubo,
        guiCapturedStep_wrote_ubo, guiExitStep_wrote_ubo]
    have ht : (drawEditor env dt st state).st.transforms_data =
        st.transforms_data := by
      rw [drawEditor_of_gui_true env dt st state hg,
        editorRenewStep_st_transforms_data, guiCapturedStep_st_transforms_data,
        guiExitStep_st_transforms_data]
    refine ⟨by simp [hw, hg], ?_⟩
    rw [ht, hw]
    simp

/-- The claim "transform block written iff `camera_moved` is set that
frame" is false as stated: on a frame where the GUI captures input while
the flag is set, nothing is recomputed or written. -/
theorem transforms_written_iff_camera_moved_counterexample :
    exEState.input.camera_moved = true ∧
    (drawEditor envGuiCapturing 1 exEState exEditorState).st.old_input.camera_moved
      = true ∧
    (drawEditor envGuiCapturing 1 exEState exEditorState).wrote_ubo = false ∧
    (drawEditor envGuiCapturing 1 exEState exEditorState).st.transforms_data =
      exEState.transforms_data :=
  ⟨rfl, rfl, rfl, rfl⟩

/-- C8: on every frame in which the pointer or the camera moved and the
GUI is not capturing input, the cursor is set to the `(x, z)` components
of the ray–terrain intersection point (dropping the vertical component)
when an intersection exists, and to the "no intersection" sentinel
otherwise. -/
theorem cursor_follows_ray_intersection {C M R H : Type}
    (env : Env C M R H) (dt : Q) (st : EState C M H) (state : EditorState)
    (hg : env.gui_wants_input = false)
    (hmv : ((drawEditor env dt st state).st.old_input.pointer_moved ||
        (drawEditor env dt st state).st.old_input.camera_moved) = true) :
    (drawEditor env dt st state).st.terrain.cursor =
      (match env.intersect_with_ray st.terrain.heights
          (env.get_ray_through_pixel (drawEditor env dt st state).st.camera
            st.input.pointer) with
       | some point => Cursor.fin point.x point.z
       | none => vec2_infinity) := by
  have hd := drawEditor_of_gui_false env dt st state hg
  rw [hd, editorRenewStep_st_old_input] at hmv
  rw [hd, editorRenewStep_st_terrain, editorRenewStep_st_camera,
    editorPipeline_st_terrain_cursor]
  simp only [editorPipeline_st_input, guiExitStep_st_input,
    guiExitStep_st_terrain] at hmv ⊢
  rw [if_pos hmv]

/-- Witness for C8 at a concrete moving frame. -/
theorem cursor_follows_ray_intersection_witness :
    envNoGui.gui_wants_input = false ∧
    ((drawEditor envNoGui 1 exEState exEditorState).st.old_input.pointer_moved ||
      (drawEditor envNoGui 1 exEState exEditorState).st.old_input.camera_moved)
      = true ∧
    (drawEditor envNoGui 1 exEState exEditorState).st.terrain.cursor =
      (match envNoGui.intersect_with_ray exEState.terrain.heights
          (envNoGui.get_ray_through_pixel
            (drawEditor envNoGui 1 exEState exEditorState).st.camera
            exEState.input.pointer) with
       | some point => Cursor.fin point.x point.z
       | none => vec2_infinity) :=
  ⟨rfl, rfl,
    cursor_follows_ray_intersection envNoGui 1 exEState exEditorState rfl rfl⟩

/-- C2: applying a scroll delta to the brush size yields the clamped
value: the result always lies in `[0.1, 200]`, and an adjustment that
would leave the range pins the size exactly at the violated bound,
regardless of the magnitude of the delta. -/
theorem brush_size_clamped {C M R H : Type}
    (env : Env C M R H) (dt : Q) (st : EState C M H) (state : EditorState)
    (hg : env.gui_wants_input = false) (hs : st.input.scrolled = true) :
    (drawEditor env dt st state).st.terrain.brush.size =
      clampQ (st.terrain.brush.size - st.input.scroll_delta.y * (3 / 2))
        (1 / 10) 200 ∧
    (1 / 10 : Q) ≤ (drawEditor env dt st state).st.terrain.brush.size ∧
    (drawEditor env dt st state).st.terrain.brush.size ≤ 200 ∧
    (st.terrain.brush.size - st.input.scroll_delta.y * (3 / 2) < 1 / 10 →
      (drawEditor env dt st state).st.terrain.brush.size = 1 / 10) ∧
    (st.terrain.brush.size - st.input.scroll_delta.y * (3 / 2) > 200 →
      (drawEditor env dt st state).st.terrain.brush.size = 200) := by
  have hmain : (drawEditor env dt st state).st.terrain.brush.size =
      clampQ (st.terrain.brush.size - st.input.scroll_delta.y * (3 / 2))
        (1 / 10) 200 := by
    rw [drawEditor_of_gui_false env dt st state hg, editorRenewStep_st_terrain,
      editorPipeline_st_brush_size]
    simp only [guiExitStep_st_terrain, guiExitStep_st_input]
    simp [hs]
  refine ⟨hmain, ?_, ?_, ?_, ?_⟩
  · rw [hmain]; unfold clampQ; split_ifs <;> linarith
  · rw [hmain]; unfold clampQ; split_ifs <;> linarith
  · intro h; rw [hmain]; unfold clampQ; split_ifs <;> linarith
  · intro h; rw [hmain]; unfold clampQ; split_ifs <;> linarith

/-- Witness for C2 at a concrete scrolled frame. -/
theorem brush_size_clamped_witness :
    envNoGui.gui_wants_input = false ∧ exEState.input.scrolled = true ∧
    ((drawEditor envNoGui 1 exEState exEditorState).st.terrain.brush.size =
      clampQ (exEState.terrain.brush.size -
        exEState.input.scroll_delta.y * (3 / 2)) (1 / 10) 200 ∧
    (1 / 10 : Q) ≤ (drawEditor envNoGui 1 exEState exEditorState).st.terrain.brush.size ∧
    (drawEditor envNoGui 1 exEState exEditorState).st.terrain.brush.size ≤ 200 ∧
    (exEState.terrain.brush.size - exEState.input.scroll_delta.y * (3 / 2) < 1 / 10 →
      (drawEditor envNoGui 1 exEState exEditorState).st.terrain.brush.size = 1 / 10) ∧
    (exEState.terrain.brush.size - exEState.input.scroll_delta.y * (3 / 2) > 200 →
      (drawEditor envNoGui 1 exEState exEditorState).st.terrain.brush.size = 200)) :=
  ⟨rfl, rfl, brush_size_clamped envNoGui 1 exEState exEditorState rfl rfl⟩

-- Helper lemmas: `Vec2` additive algebra and accumulation folds.

theorem Vec2.add_def (a b : Vec2) : a + b = ⟨a.x + b.x, a.y + b.y⟩ := rfl

theorem Vec2.zero_def : (0 : Vec2) = ⟨0, 0⟩ := rfl

theorem Vec2.div_def (v : Vec2) (k : Q) : v / k = ⟨v.x / k, v.y / k⟩ := rfl

theorem Vec2.zero_add (v : Vec2) : (0 : Vec2) + v = v := by
  cases v
  simp [Vec2.add_def, Vec2.zero_def]

theorem Vec2.add_zero (v : Vec2) : v + (0 : Vec2) = v := by
  cases v
  simp [Vec2.add_def, Vec2.zero_def]

theorem Vec2.add_assoc (a b c : Vec2) : a + b + c = a + (b + c) := by
  cases a; cases b; cases c
  simp [Vec2.add_def]
  constructor <;> ring

theorem applyAccs_nil (s : RawInput) : s.applyAccs [] = s := rfl

theorem applyAccs_cons (s : RawInput) (op : Acc) (rest : List Acc) :
    s.applyAccs (op :: rest) = (s.applyAcc op).applyAccs rest := rfl

theorem applyAccs_events (ops : List Acc) :
    ∀ s : RawInput, (s.applyAccs ops).events = s.events ++ Acc.pushedEvents ops := by
  induction ops with
  | nil => intro s; simp [applyAccs_nil, Acc.pushedEvents]
  | cons op rest ih =>
      intro s
      rw [applyAccs_cons]
      cases op <;> simp [RawInput.applyAcc, Acc.pushedEvents, ih]

theorem applyAccs_pointer_delta (ops : List Acc) :
    ∀ s : RawInput,
      (s.applyAccs ops).pointer_delta = s.pointer_delta + Acc.pointerDeltaSum ops := by
  induction ops with
  | nil => intro s; simp [applyAccs_nil, Acc.pointerDeltaSum, Vec2.add_zero]
  | cons op rest ih =>
      intro s
      rw [applyAccs_cons]
      cases op <;>
        simp [RawInput.applyAcc, Acc.pointerDeltaSum, ih, Vec2.add_assoc]

theorem applyAccs_scroll_delta (ops : List Acc) :
    ∀ s : RawInput,
      (s.applyAccs ops).scroll_delta = s.scroll_delta + Acc.scrollDeltaSum ops := by
  induction ops with
  | nil => intro s; simp [applyAccs_nil, Acc.scrollDeltaSum, Vec2.add_zero]
  | cons op rest ih =>
      intro s
      rw [applyAccs_cons]
      cases op <;>
        simp [RawInput.applyAcc, Acc.scrollDeltaSum, ih, Vec2.add_assoc]

/-- C3: `renew()` round-trip.  Starting from the live snapshot left by a
`renew()`, accumulating a frame's mutations and renewing again returns a
snapshot holding exactly the accumulated events (in order, once each) and
exactly the summed pointer and scroll deltas; the new live snapshot has
those fields reset to neutral, while the persistent fields (modifiers,
pointer position, screen size, scale factor, game start) carry forward
unchanged. -/
theorem rawinput_renew_round_trip (s : RawInput) (t1 : Q) (ops : List Acc)
    (t2 : Q) :
    ((((s.renew t1).2).applyAccs ops).renew t2).1.events = Acc.pushedEvents ops ∧
    ((((s.renew t1).2).applyAccs ops).renew t2).1.pointer_delta =
      Acc.pointerDeltaSum ops ∧
    ((((s.renew t1).2).applyAccs ops).renew t2).1.scroll_delta =
      Acc.scrollDeltaSum ops ∧
    ((((s.renew t1).2).applyAccs ops).renew t2).2.events = [] ∧
    ((((s.renew t1).2).applyAccs ops).renew t2).2.pointer_delta = 0 ∧
    ((((s.renew t1).2).applyAccs ops).renew t2).2.scroll_delta = 0 ∧
    ((((s.renew t1).2).applyAccs ops).renew t2).2.modifiers =
      (((s.renew t1).2).applyAccs ops).modifiers ∧
    ((((s.renew t1).2).applyAccs ops).renew t2).2.pointer_pos =
      (((s.renew t1).2).applyAccs ops).pointer_pos ∧
    ((((s.renew t1).2).applyAccs ops).renew t2).2.screen_size =
      (((s.renew t1).2).applyAccs ops).screen_size ∧
    ((((s.renew t1).2).applyAccs ops).renew t2).2.scale_factor =
      (((s.renew t1).2).applyAccs ops).scale_factor ∧
    ((((s.renew t1).2).applyAccs ops).renew t2).2.game_start =
      (((s.renew t1).2).applyAccs ops).game_start := by
  refine ⟨?_, ?_, ?_, rfl, rfl, rfl, rfl, rfl, rfl, rfl, rfl⟩
  · show ((((s.renew t1).2).applyAccs ops)).events = Acc.pushedEvents ops
    rw [applyAccs_events]
    simp [RawInput.renew]
  · show ((((s.renew t1).2).applyAccs ops)).pointer_delta = Acc.pointerDeltaSum ops
    rw [applyAccs_pointer_delta]
    simp [RawInput.renew, Vec2.zero_add]
  · show ((((s.renew t1).2).applyAccs ops)).scroll_delta = Acc.scrollDeltaSum ops
    rw [applyAccs_scroll_delta]
    simp [RawInput.renew, Vec2.zero_add]

/-- The claim that the pointer delta accumulates only when the free-camera
condition holds is false on the code: `Game::process_event` guards the
`MouseMotion` arm only by window focus; here a motion event accumulates
while the editor's free camera is off. -/
theorem pointer_delta_free_camera_counterexample :
    Game.freeCamera exGame = false ∧ exGame.in_focus = true ∧
    (exGame.processEvent (PlatformEvent.MouseMotion ⟨1, 0⟩)).input.pointer_delta ≠
      exGame.input.pointer_delta := by
  refine ⟨rfl, rfl, ?_⟩
  simp [Game.processEvent, exGame, exInputQuiet, Vec2.div_def, Vec2.add_def]

/-- C1 (amended): a raw mouse-motion device event accumulates its
scale-adjusted delta into the snapshot's `pointer_delta` exactly when the
window has input focus (the free-camera condition is not consulted by the
event handler); the delta is zeroed only when the snapshot is consumed by
`renew()` — never by the event itself — so multiple motion events within
one frame sum, and the consumed snapshot carries the accumulated value. -/
theorem pointer_delta_accumulates_iff_focused (g : Game) (d d' : Vec2) :
    (g.processEvent (PlatformEvent.MouseMotion d)).input.pointer_delta =
      (if g.in_focus then g.input.pointer_delta + d / g.scale_factor
       else g.input.pointer_delta) ∧
    ((g.processEvent (PlatformEvent.MouseMotion d)).processEvent
        (PlatformEvent.MouseMotion d')).input.pointer_delta =
      (if g.in_focus then
        g.input.pointer_delta + d / g.scale_factor + d' / g.scale_factor
       else g.input.pointer_delta) ∧
    (g.input.renew).2.pointer_delta = 0 ∧
    (g.input.renew).1.pointer_delta = g.input.pointer_delta := by
  cases hf : g.in_focus <;>
    simp [Game.processEvent, hf, Input.renew]

end TerrainBuilder


